import Mathlib

/-!
Shallow embedding of the result-aggregation core of `src/util.rs`
(`sysinfo-1-s4498989.deta.app`).

Modelling conventions:
- Rust `Result<T, T>` (the alias `TwinResult<T>`) is the inductive `TwinResult`.
- Rust `Result<T, RunError>` (the alias `RunResult<T>`) is the inductive `RunResult`;
  the `?` operator is `RunResult.bind`.
- Bytes (`u8`) are `Nat` values; the relevant theorems carry the bound `b < 256`.
- A spawned child's observable effect (`std::io::Result<Output>`, the value the
  `Command::output()` future resolves to) is passed to the completion functions as an
  explicit `OsResult Output` argument; an OS-level `io::Error` is kept as its rendered
  text, which is all the source ever uses of it.
-/

/-- Rust `TwinResult<T> = Result<T, T>`: both arms carry the same payload type. -/
inductive TwinResult (T : Type) where
  | ok : T → TwinResult T
  | err : T → TwinResult T
deriving DecidableEq, Repr

/-- Rust `StringTwinResult = TwinResult<String>`. -/
abbrev StringTwinResult := TwinResult String

/-- Rust `Result::is_ok` on a `TwinResult`. -/
def TwinResult.is_ok {T : Type} : TwinResult T → Bool
  | .ok _ => true
  | .err _ => false

/-- Rust `twin_result_value`: the wrapped value, whichever arm holds it. -/
def twin_result_value {T : Type} : TwinResult T → T
  | .ok value => value
  | .err value => value

/-- Rust `RunError { program: Box<String>, error: std::io::Error }`; the io error is
kept as its rendered text. -/
structure RunError where
  program : String
  error : String
deriving DecidableEq, Repr

/-- `Display for RunError` from `src/util.rs`. -/
def RunError.toString (e : RunError) : String :=
  "Expected to run " ++ e.program ++ ", but failed abruptly: " ++ e.error ++ "."

/-- Rust `RunResult<T> = Result<T, RunError>`. -/
inductive RunResult (T : Type) where
  | ok : T → RunResult T
  | err : RunError → RunResult T
deriving DecidableEq, Repr

/-- Rust `RunStringResult = RunResult<String>`. -/
abbrev RunStringResult := RunResult String

/-- Rust `Result::is_ok` on a `RunResult`. -/
def RunResult.is_ok {T : Type} : RunResult T → Bool
  | .ok _ => true
  | .err _ => false

/-- The Rust `?` operator on `RunResult`: propagate the first error, otherwise continue. -/
def RunResult.bind {T P : Type} : RunResult T → (T → RunResult P) → RunResult P
  | .ok v, f => f v
  | .err e, _ => .err e

/-- Rust `FlagTwin<T>`: the Ok/Err discriminant exposed as the bool flag `is_ok`, the
wrapped value exposed as `value`. -/
structure FlagTwin (T : Type) where
  is_ok : Bool
  value : T
deriving DecidableEq, Repr

/-- Rust `FlagTwinTuple<T> = (bool, T)`. -/
abbrev FlagTwinTuple (T : Type) := Bool × T

/-- Rust `FlagStringTwin = FlagTwin<String>`. -/
abbrev FlagStringTwin := FlagTwin String

/-- Rust `FlagTwin::new`. -/
def FlagTwin.new {T : Type} (r : TwinResult T) : FlagTwin T :=
  { is_ok := r.is_ok, value := twin_result_value r }

/-- Rust `FlagTwin::link`: combine a twin with a raw `TwinResult`. -/
def FlagTwin.link {T P : Type} (self : FlagTwin T) (next : TwinResult P) :
    FlagTwin (T × P) :=
  { is_ok := self.is_ok && next.is_ok, value := (self.value, twin_result_value next) }

/-- Rust `FlagTwin::and`: combine two already-built twins. -/
def FlagTwin.and {T P : Type} (self : FlagTwin T) (next : FlagTwin P) :
    FlagTwin (T × P) :=
  { is_ok := self.is_ok && next.is_ok, value := (self.value, next.value) }

/-- Rust `FlagTwin::split`. -/
def FlagTwin.split {T : Type} (self : FlagTwin T) : FlagTwinTuple T :=
  (self.is_ok, self.value)

/-- Rust `FlagTwin::pairable`: start a chain, turning the twin's own (flag, value) into
the stored value. -/
def FlagTwin.pairable {T : Type} (self : FlagTwin T) : FlagTwin (FlagTwinTuple T) :=
  { is_ok := self.is_ok, value := (self.is_ok, self.value) }

/-- Rust `FlagTwinPairable::pair_first` (on `FlagTwin<FlagTwinTuple<T>>`). -/
def FlagTwin.pair_first {T P : Type} (self : FlagTwin (FlagTwinTuple T))
    (next : FlagTwin P) : FlagTwin (FlagTwinTuple T × FlagTwinTuple P) :=
  { is_ok := self.is_ok && next.is_ok
    value := (self.value, (next.is_ok, next.value)) }

/-- Rust `FlagTwinPaired::pair` (on `FlagTwin<(T, FlagTwinTuple<P>)>`). -/
def FlagTwin.pair {T P R : Type} (self : FlagTwin (T × FlagTwinTuple P))
    (next : FlagTwin R) : FlagTwin ((T × FlagTwinTuple P) × FlagTwinTuple R) :=
  { is_ok := self.is_ok && next.is_ok
    value := (self.value, (next.is_ok, next.value)) }

/-- The value type of a left-nested chain over `n + 1` leaves of type `T`: the shape
produced by `pairable` (`n = 0`), then one `pair_first`, then `pair` repeatedly. -/
def NestedTy (T : Type) : Nat → Type
  | 0 => FlagTwinTuple T
  | n + 1 => NestedTy T n × FlagTwinTuple T

/-- One chain-extension step: `pair_first` when the accumulator is a bare `pairable`
twin, `pair` afterwards — exactly the only typings the source admits. -/
def nestStep {T : Type} : {n : Nat} → FlagTwin (NestedTy T n) → FlagTwin T →
    FlagTwin (NestedTy T (n + 1))
  | 0, acc, next => acc.pair_first next
  | _ + 1, acc, next => acc.pair next

/-- The chain `first.pairable().pair_first(l2).pair(l3)...`, with the *later* leaves at
the head of `ls` (so the chain over declared order `first, rest` is
`chainRev first rest.reverse`). -/
def chainRev {T : Type} (first : FlagTwin T) :
    (ls : List (FlagTwin T)) → FlagTwin (NestedTy T ls.length)
  | [] => first.pairable
  | x :: xs => nestStep (chainRev first xs) x

/-- Extract every leaf's (flag, value) pair from a nested chain value, in declared
(innermost-first) order. -/
def leavesOf {T : Type} : {n : Nat} → NestedTy T n → List (FlagTwinTuple T)
  | 0, bt => [bt]
  | _ + 1, (rest, bt) => leavesOf rest ++ [bt]

/-- Rust `Output` (`std::process::Output`): exit status plus captured stream bytes. -/
structure Output where
  status : Int
  stdout : List Nat
  stderr : List Nat
deriving DecidableEq, Repr

/-- Rust `std::io::Result<T>`, the error kept as its rendered text. -/
inductive OsResult (T : Type) where
  | ok : T → OsResult T
  | err : String → OsResult T
deriving DecidableEq, Repr

/-- Rust `ProgramAndArgs`: program plus ordered argument list. -/
structure ProgramAndArgs where
  program : String
  args : List String
deriving DecidableEq, Repr

/-- `Display for ProgramAndArgs`: the program, then each argument preceded by a space. -/
def ProgramAndArgs.display (pa : ProgramAndArgs) : String :=
  pa.args.foldl (fun acc a => acc ++ " " ++ a) pa.program

/-- Rust `Command`, restricted to the fields the source sets in
`ProgramAndArgs::command`. -/
structure Command where
  program : String
  killOnDrop : Bool
  args : List String
deriving DecidableEq, Repr

/-- Rust `ProgramAndArgs::command`: build the `Command`, set `kill_on_drop(true)`,
pass the arguments. -/
def ProgramAndArgs.command (pa : ProgramAndArgs) : Command :=
  { program := pa.program, killOnDrop := true, args := pa.args }

/-- Rust `ascii_bytes_to_string`: push one `char` per byte, codepoint = byte value. -/
def ascii_bytes_to_string (bytes : List Nat) : String :=
  bytes.foldl (fun result byte => result.push (Char.ofNat byte)) ""

/-- The success payload both completion functions build from a captured `Output`:
`"OUT:\n" + stdout + "\n\nERR:\n" + stderr` (decoded byte-per-char). -/
def completed_payload (out : Output) : String :=
  "OUT:\n" ++ ascii_bytes_to_string out.stdout ++ "\n\nERR:\n"
    ++ ascii_bytes_to_string out.stderr

/-- Rust `RunProgress::complete`, as a function of the value the spawned process's
future resolved to. -/
def complete (pa : ProgramAndArgs) (out : OsResult Output) : RunStringResult :=
  match out with
  | .ok out => RunResult.ok (completed_payload out)
  | .err error => RunResult.err { program := pa.display, error := error }

/-- Rust `RunProgress::complete_chainable`, as a function of the value the spawned
process's future resolved to. -/
def complete_chainable (pa : ProgramAndArgs) (out : OsResult Output) : FlagStringTwin :=
  match out with
  | .ok out => FlagTwin.new (TwinResult.ok (completed_payload out))
  | .err error =>
    FlagTwin.new (TwinResult.err
      (RunError.toString { program := pa.display, error := error }))

/-- Rust `run`: bundle the program and arguments (the spawn itself is the OS's side). -/
def run (program : String) (args : List String) : ProgramAndArgs :=
  { program := program, args := args }

/-- Rust `where_is`: locate a binary via `/usr/bin/which`. -/
def where_is (program_to_locate : String) : ProgramAndArgs :=
  run "/usr/bin/which" [program_to_locate]

/-- Rust `all_ok_formatted_or_first_error` (Policy A): invoke the generator; on success
format the tuple, on the first error render that error into the `Err` arm. -/
def all_ok_formatted_or_first_error {T : Type} (ok_filter : Unit → RunResult T)
    (ok_formatter : T → String) : StringTwinResult :=
  match ok_filter () with
  | .ok content => TwinResult.ok (ok_formatter content)
  | .err err => TwinResult.err err.toString

/-- The `ok_formatter` closure of `content_locate_binaries`:
`"" + free + "\n" + df + "\n" + mount + "\n" + tree`. -/
def locate_binaries_formatter (t : String × String × String × String) : String :=
  match t with
  | (free, df, mount, tree) =>
    "" ++ free ++ "\n" ++ df ++ "\n" ++ mount ++ "\n" ++ tree

/-- Rust `content_locate_binaries`, as a function of the four completed results
(declared order: free, df, mount, tree). The `ok_filter` closure
`|| Ok((free?, df?, mount?, tree?))` is the left-to-right `?` chain. -/
def content_locate_binaries (free df mount tree : RunStringResult) :
    StringTwinResult :=
  all_ok_formatted_or_first_error
    (fun _ =>
      free.bind fun free =>
      df.bind fun df =>
      mount.bind fun mount =>
      tree.bind fun tree => RunResult.ok (free, df, mount, tree))
    locate_binaries_formatter

/-- Rust `content_locate_binaries` end-to-end: each of the four operations is
`where_is` of its binary, completed with the OS's response for it. -/
def content_locate_binaries_run (free df mount tree : OsResult Output) :
    StringTwinResult :=
  content_locate_binaries
    (complete (where_is "free") free)
    (complete (where_is "df") df)
    (complete (where_is "mount") mount)
    (complete (where_is "tree") tree)

/-- The `ok_formatter` closure of `content_ls`. -/
def content_ls_formatter (t : String × String × String × String × String) : String :=
  match t with
  | (current, root, bin, sbin, tmp) =>
    "ls -l . :\n" ++ current ++ "\n\nls -l / :\n" ++ root ++ "\n\nls /bin :\n" ++ bin
      ++ "\n\nls /sbin :\n" ++ sbin ++ "\n\nls -l /tmp :\n" ++ tmp

/-- Rust `content_ls`, as a function of the five completed results (declared order:
current, root, bin, sbin, tmp). -/
def content_ls (current root bin sbin tmp : RunStringResult) : StringTwinResult :=
  all_ok_formatted_or_first_error
    (fun _ =>
      current.bind fun current =>
      root.bind fun root =>
      bin.bind fun bin =>
      sbin.bind fun sbin =>
      tmp.bind fun tmp => RunResult.ok (current, root, bin, sbin, tmp))
    content_ls_formatter

/-- Declared-order first error of the four results fed to Policy A in
`content_locate_binaries` — the specification's notion of "the first failing
operation in declared order". -/
def declared_order_first_error (free df mount tree : RunStringResult) :
    Option RunError :=
  match free with
  | .err e => some e
  | .ok _ =>
    match df with
    | .err e => some e
    | .ok _ =>
      match mount with
      | .err e => some e
      | .ok _ =>
        match tree with
        | .err e => some e
        | .ok _ => none

/-! ## Helper lemmas -/

theorem nestStep_is_ok {T : Type} {n : Nat} (acc : FlagTwin (NestedTy T n))
    (next : FlagTwin T) : (nestStep acc next).is_ok = (acc.is_ok && next.is_ok) := by
  cases n <;> rfl

theorem leavesOf_nestStep {T : Type} {n : Nat} (acc : FlagTwin (NestedTy T n))
    (next : FlagTwin T) :
    leavesOf (nestStep acc next).value
      = leavesOf acc.value ++ [(next.is_ok, next.value)] := by
  cases n <;> rfl

theorem chainRev_is_ok {T : Type} (first : FlagTwin T) (ls : List (FlagTwin T)) :
    (chainRev first ls).is_ok = (first.is_ok && ls.all fun l => l.is_ok) := by
  induction ls with
  | nil => simp [chainRev, FlagTwin.pairable]
  | cons x xs ih =>
    simp [chainRev, nestStep_is_ok, ih, List.all_cons, Bool.and_assoc, Bool.and_comm,
      Bool.and_left_comm]

theorem chainRev_leaves {T : Type} (first : FlagTwin T) (ls : List (FlagTwin T)) :
    leavesOf (chainRev first ls).value
      = (first.is_ok, first.value) :: (ls.reverse.map fun l => (l.is_ok, l.value)) := by
  induction ls with
  | nil => rfl
  | cons x xs ih => simp [chainRev, leavesOf_nestStep, ih, List.reverse_cons]

theorem ascii_foldl_data (bytes : List Nat) (s : String) :
    (bytes.foldl (fun result byte => result.push (Char.ofNat byte)) s).data
      = s.data ++ bytes.map Char.ofNat := by
  induction bytes generalizing s with
  | nil => simp
  | cons b bs ih =>
    rw [List.foldl_cons, ih]
    simp [String.push]

theorem ascii_data (bytes : List Nat) :
    (ascii_bytes_to_string bytes).data = bytes.map Char.ofNat := by
  simp [ascii_bytes_to_string, ascii_foldl_data]

theorem toNat_ofNat_of_lt {b : Nat} (h : b < 256) : (Char.ofNat b).toNat = b := by
  have hv : b.isValidChar := Or.inl (by omega)
  rw [Char.ofNat, dif_pos hv]
  simp [Char.ofNatAux, Char.toNat, BitVec.ofNatLt]
  rfl

/-! ## Claim theorems -/

/-- Claim C1: Policy A (`all_ok_formatted_or_first_error` applied to the results in
declared order, as in `content_locate_binaries`) returns, when at least one operation
failed, exactly the rendered error text of the first failing operation in declared
order; no other operation's payload or error appears in the output (the result depends
only on that first error). -/
theorem policy_a_first_error (free df mount tree : RunStringResult) (e : RunError)
    (h : declared_order_first_error free df mount tree = some e) :
    content_locate_binaries free df mount tree
      = TwinResult.err (RunError.toString e) := by
  cases free with
  | err e1 =>
    simp [declared_order_first_error] at h
    subst h
    rfl
  | ok f =>
    cases df with
    | err e1 =>
      simp [declared_order_first_error] at h
      subst h
      rfl
    | ok d =>
      cases mount with
      | err e1 =>
        simp [declared_order_first_error] at h
        subst h
        rfl
      | ok m =>
        cases tree with
        | err e1 =>
          simp [declared_order_first_error] at h
          subst h
          rfl
        | ok t => simp [declared_order_first_error] at h

/-- Witness for C1: with `df` the first failure (and `mount` also failing), Policy A
returns exactly the rendered `df` error. -/
theorem policy_a_first_error_witness :
    content_locate_binaries (RunResult.ok "FREE")
      (RunResult.err { program := "/usr/bin/which df", error := "no such file" })
      (RunResult.err { program := "/usr/bin/which mount", error := "boom" })
      (RunResult.ok "TREE")
      = TwinResult.err (RunError.toString
          { program := "/usr/bin/which df", error := "no such file" }) :=
  policy_a_first_error _ _ _ _
    { program := "/usr/bin/which df", error := "no such file" } (by rfl)

/-- Claim C2: when every operation succeeds, Policy A returns `Ok` of the
`ok_formatter` applied to exactly the tuple of success payloads in declared order —
stated generically for `all_ok_formatted_or_first_error` and for the five-operation
instance `content_ls`. -/
theorem policy_a_all_ok :
    (∀ (T : Type) (v : T) (fmt : T → String),
      all_ok_formatted_or_first_error (fun _ => RunResult.ok v) fmt
        = TwinResult.ok (fmt v)) ∧
    ∀ current root bin sbin tmp : String,
      content_ls (RunResult.ok current) (RunResult.ok root) (RunResult.ok bin)
          (RunResult.ok sbin) (RunResult.ok tmp)
        = TwinResult.ok (content_ls_formatter (current, root, bin, sbin, tmp)) :=
  ⟨fun _ _ _ => rfl, fun _ _ _ _ _ => rfl⟩

/-- Claim C3: for every chain built with `pairable`, `pair_first` and `pair` from
leaves `first, rest` in declared order (`chainRev first rest.reverse`), the top-level
`is_ok` is the conjunction of every leaf's `is_ok`, and every leaf's original
(is_ok, value) pair is recovered unchanged, in declared order, from the nested value. -/
theorem policy_b_chain_invariant {T : Type} (first : FlagTwin T)
    (rest : List (FlagTwin T)) :
    (chainRev first rest.reverse).is_ok = ((first :: rest).all fun l => l.is_ok) ∧
    leavesOf (chainRev first rest.reverse).value
      = ((first :: rest).map fun l => (l.is_ok, l.value)) := by
  constructor
  · rw [chainRev_is_ok]
    simp [List.all_cons]
  · rw [chainRev_leaves]
    simp

/-- Claim C4: when the spawned process's future resolves with an `Output`, `complete`
returns `Ok` (and `complete_chainable` an `is_ok` twin) for every exit status, and the
exit status value does not influence the returned payload. -/
theorem complete_ignores_exit_status (pa : ProgramAndArgs) (s s' : Int)
    (outBytes errBytes : List Nat) :
    complete pa (OsResult.ok { status := s, stdout := outBytes, stderr := errBytes })
        = RunResult.ok
          (completed_payload { status := s, stdout := outBytes, stderr := errBytes }) ∧
    complete pa (OsResult.ok { status := s, stdout := outBytes, stderr := errBytes })
        = complete pa
          (OsResult.ok { status := s', stdout := outBytes, stderr := errBytes }) ∧
    (complete_chainable pa
        (OsResult.ok { status := s, stdout := outBytes, stderr := errBytes })).is_ok
        = true ∧
    complete_chainable pa
        (OsResult.ok { status := s, stdout := outBytes, stderr := errBytes })
        = complete_chainable pa
          (OsResult.ok { status := s', stdout := outBytes, stderr := errBytes }) :=
  ⟨rfl, rfl, rfl, rfl⟩

/-- Claim C5: `ascii_bytes_to_string` is total, produces exactly one character per
input byte in order, and each character's codepoint equals the byte's value. -/
theorem ascii_one_char_per_byte (bytes : List Nat) (h : ∀ b ∈ bytes, b < 256) :
    (ascii_bytes_to_string bytes).length = bytes.length ∧
    (ascii_bytes_to_string bytes).data.map Char.toNat = bytes := by
  constructor
  · show (ascii_bytes_to_string bytes).data.length = bytes.length
    rw [ascii_data]
    simp
  · rw [ascii_data, List.map_map]
    have hc : bytes.map (Char.toNat ∘ Char.ofNat) = bytes.map id := by
      apply List.map_congr_left
      intro b hb
      exact toNat_ofNat_of_lt (h b hb)
    simpa using hc

/-- Witness for C5 at the bytes `[72, 101, 255, 0]` (which include a non-ASCII byte
and a NUL byte). -/
theorem ascii_one_char_per_byte_witness :
    (∀ b ∈ [72, 101, 255, 0], b < 256) ∧
    ((ascii_bytes_to_string [72, 101, 255, 0]).length = 4 ∧
      (ascii_bytes_to_string [72, 101, 255, 0]).data.map Char.toNat
        = [72, 101, 255, 0]) := by
  refine ⟨by decide, ?_⟩
  have h := ascii_one_char_per_byte [72, 101, 255, 0] (by decide)
  simpa using h

/-- Claim C6 counterexample: all four `which` lookups succeed with single-line paths
(`/a`, `/b`, `/c`, `/d`, each stdout one path plus a trailing newline, empty stderr,
exit status 0), yet `content_locate_binaries` does not return the four paths joined by
newlines — each payload is wrapped in the `OUT:`/`ERR:` decoration first. -/
theorem locate_binaries_not_bare_paths :
    content_locate_binaries_run
        (OsResult.ok { status := 0, stdout := [47, 97, 10], stderr := [] })
        (OsResult.ok { status := 0, stdout := [47, 98, 10], stderr := [] })
        (OsResult.ok { status := 0, stdout := [47, 99, 10], stderr := [] })
        (OsResult.ok { status := 0, stdout := [47, 100, 10], stderr := [] })
        ≠ TwinResult.ok "/a\n/b\n/c\n/d" ∧
    content_locate_binaries_run
        (OsResult.ok { status := 0, stdout := [47, 97, 10], stderr := [] })
        (OsResult.ok { status := 0, stdout := [47, 98, 10], stderr := [] })
        (OsResult.ok { status := 0, stdout := [47, 99, 10], stderr := [] })
        (OsResult.ok { status := 0, stdout := [47, 100, 10], stderr := [] })
        ≠ TwinResult.ok "/a\n\n/b\n\n/c\n\n/d\n" := by
  constructor <;> decide

/-- Claim C6 (amended): when all four lookups succeed, `content_locate_binaries`
returns `Ok` of the newline-join, in declared order free, df, mount, tree, of the four
*decorated* success payloads (`OUT:\n` + stdout + `\n\nERR:\n` + stderr); the located
paths appear only inside the `OUT:` sections. -/
theorem locate_binaries_joined_payloads (s1 s2 s3 s4 : Int)
    (p1 p2 p3 p4 e1 e2 e3 e4 : List Nat) :
    content_locate_binaries_run
        (OsResult.ok { status := s1, stdout := p1, stderr := e1 })
        (OsResult.ok { status := s2, stdout := p2, stderr := e2 })
        (OsResult.ok { status := s3, stdout := p3, stderr := e3 })
        (OsResult.ok { status := s4, stdout := p4, stderr := e4 })
      = TwinResult.ok (locate_binaries_formatter
          (completed_payload { status := s1, stdout := p1, stderr := e1 },
           completed_payload { status := s2, stdout := p2, stderr := e2 },
           completed_payload { status := s3, stdout := p3, stderr := e3 },
           completed_payload { status := s4, stdout := p4, stderr := e4 })) := rfl

/-- Claim C7: `FlagTwin::link` on a twin and a raw `TwinResult` yields the conjunction
flag and the pair of both values irrespective of either side's outcome, and
`FlagTwin::and` behaves identically on two already-built twins. -/
theorem link_and_combine {T P : Type} (t : FlagTwin T) (r : TwinResult P)
    (a : FlagTwin T) (b : FlagTwin P) :
    (t.link r).is_ok = (t.is_ok && r.is_ok) ∧
    (t.link r).value = (t.value, twin_result_value r) ∧
    (a.and b).is_ok = (a.is_ok && b.is_ok) ∧
    (a.and b).value = (a.value, b.value) :=
  ⟨rfl, rfl, rfl, rfl⟩

/-- Claim C8: `FlagTwin::and` is associative in effect — both nestings expose the same
top-level `is_ok`, the conjunction of the three flags — while the value keeps the
fixed left-to-right nesting of the calls. -/
theorem and_associative_in_effect {T P R : Type} (a : FlagTwin T) (b : FlagTwin P)
    (c : FlagTwin R) :
    ((a.and b).and c).is_ok = (a.and (b.and c)).is_ok ∧
    ((a.and b).and c).is_ok = (a.is_ok && b.is_ok && c.is_ok) ∧
    ((a.and b).and c).value = ((a.value, b.value), c.value) := by
  refine ⟨?_, rfl, rfl⟩
  simp [FlagTwin.and, Bool.and_assoc]

/-- Claim C9: every successful completion payload, for both `complete` and
`complete_chainable`, is the decorated string
`"OUT:\n" ++ stdout ++ "\n\nERR:\n" ++ stderr` — never the raw stdout text alone. -/
theorem complete_payload_decorated (pa : ProgramAndArgs) (out : Output) :
    complete pa (OsResult.ok out) = RunResult.ok (completed_payload out) ∧
    complete_chainable pa (OsResult.ok out)
        = FlagTwin.new (TwinResult.ok (completed_payload out)) ∧
    completed_payload out
        = "OUT:\n" ++ ascii_bytes_to_string out.stdout ++ "\n\nERR:\n"
          ++ ascii_bytes_to_string out.stderr :=
  ⟨rfl, rfl, rfl⟩
